import Mathlib

/-!
Verification of the command/response bridge of the Cinema 4D MCP repository.

Host side (c4d_plugin.py): the socket server `Cinema4DMCPServer` with its
per-connection handler loop `_handle_client` and dispatcher `execute_command`.
Client side (src/cinema4d_mcp/server.py): `Cinema4DConnection` with
`receive_full_response`, `send_command`, and the module-level
`get_cinema4d_connection`.  Chat store (src/cinema4d_mcp/chat_manager.py):
`ChatManager`.

Modelling conventions:
- JSON values are the inductive `Json` below; a `Json.obj` models a Python
  dict produced by `json.loads` (unique keys, insertion order).
- Byte strings are `List Nat` (byte values).  `bytes.decode("utf-8")` is
  modelled by the concrete validity checker `validUtf8` (Python raises
  `UnicodeDecodeError` exactly on invalid byte sequences); the JSON text
  parser `json.loads` itself is an external library function and is a
  parameter `jsonLoads : List Nat -> Option Json` of the transport models
  (`none` models `json.JSONDecodeError`).
- The Cinema 4D application state reachable from the plugin is `App`
  (the active document).  Handler bodies that consist purely of calls into
  the `c4d` API (rendering, screenshots, exec, ...) are modelled by an
  external-effect record `Ext`; every such body in the source is wrapped in
  `try/except` and returns a dict, so the model gives them the type
  `List (String x Json) -> Doc -> Json x Doc` (no exception can escape).
- Python exceptions are `Except`/`PyExc` values.  Messages of exceptions
  raised by the Python runtime itself are reproduced without the quote
  characters Python puts around identifiers.
-/

namespace C4DMCP

/-- JSON values (the wire data model).  Numbers are rationals: the few
numeric literals in the source (ports, sizes, defaults such as 0.5) are
exact decimals. -/
inductive Json where
  | null
  | bool (b : Bool)
  | num (q : Rat)
  | str (s : String)
  | arr (items : List Json)
  | obj (fields : List (String × Json))
deriving Repr

/-- `d.get(key)` on a Python dict modelled as an association list. -/
def pyGet (fields : List (String × Json)) (key : String) : Option Json :=
  match fields.find? (fun p => p.1 == key) with
  | some p => some p.2
  | none => none

/-- Python type name of a value, as it appears in runtime error messages. -/
def pyTypeName : Json → String
  | Json.null => "NoneType"
  | Json.bool _ => "bool"
  | Json.num q => if q.den = 1 then "int" else "float"
  | Json.str _ => "str"
  | Json.arr _ => "list"
  | Json.obj _ => "dict"

/-- Python truthiness of a JSON value. -/
def pyTruthy : Json → Bool
  | Json.null => false
  | Json.bool b => b
  | Json.num q => q != 0
  | Json.str s => s != ""
  | Json.arr xs => !xs.isEmpty
  | Json.obj fs => !fs.isEmpty

/-- Python repr of a number (floats with denominator other than one are
shown as fractions; the source never formats a non-integer number). -/
def numRepr (q : Rat) : String :=
  if q.den = 1 then toString q.num else toString q

mutual

/-- Python `repr` of a JSON value (used by f-string interpolation of
non-string values in error messages). -/
def pyRepr : Json → String
  | Json.null => "None"
  | Json.bool true => "True"
  | Json.bool false => "False"
  | Json.num q => numRepr q
  | Json.str s => "\x27" ++ s ++ "\x27"
  | Json.arr xs => "[" ++ pyReprList xs ++ "]"
  | Json.obj fs => "\x7b" ++ pyReprFields fs ++ "\x7d"

/-- Comma-separated reprs of the items of a list. -/
def pyReprList : List Json → String
  | [] => ""
  | [x] => pyRepr x
  | x :: xs => pyRepr x ++ ", " ++ pyReprList xs

/-- Comma-separated reprs of the entries of a dict. -/
def pyReprFields : List (String × Json) → String
  | [] => ""
  | [(k, v)] => "\x27" ++ k ++ "\x27: " ++ pyRepr v
  | (k, v) :: fs => "\x27" ++ k ++ "\x27: " ++ pyRepr v ++ ", " ++ pyReprFields fs

end

/-- Python `str` of a JSON value (as interpolated by an f-string). -/
def pyStr (j : Json) : String :=
  match j with
  | Json.str s => s
  | other => pyRepr other

/-- `str(cmd_type)` where `cmd_type` may be the Python `None` returned by
`command.get("type")` on a missing key. -/
def pyStrOpt : Option Json → String
  | none => "None"
  | some j => pyStr j

/-- A UTF-8 continuation byte (0x80-0xBF). -/
def isCont (b : Nat) : Bool := 0x80 ≤ b && b ≤ 0xBF

/-- Strict UTF-8 validity of a byte string: `data.decode("utf-8")` succeeds
in Python exactly on valid sequences (excluding overlong forms, surrogates
and values above U+10FFFF) and raises `UnicodeDecodeError` otherwise. -/
def validUtf8 : List Nat → Bool
  | [] => true
  | b :: rest =>
    if b ≤ 0x7F then validUtf8 rest
    else if b < 0xC2 then false
    else if b ≤ 0xDF then
      match rest with
      | c1 :: r => isCont c1 && validUtf8 r
      | [] => false
    else if b = 0xE0 then
      match rest with
      | c1 :: c2 :: r => (0xA0 ≤ c1 && c1 ≤ 0xBF) && isCont c2 && validUtf8 r
      | _ => false
    else if b ≤ 0xEC then
      match rest with
      | c1 :: c2 :: r => isCont c1 && isCont c2 && validUtf8 r
      | _ => false
    else if b = 0xED then
      match rest with
      | c1 :: c2 :: r => (0x80 ≤ c1 && c1 ≤ 0x9F) && isCont c2 && validUtf8 r
      | _ => false
    else if b ≤ 0xEF then
      match rest with
      | c1 :: c2 :: r => isCont c1 && isCont c2 && validUtf8 r
      | _ => false
    else if b = 0xF0 then
      match rest with
      | c1 :: c2 :: c3 :: r =>
          (0x90 ≤ c1 && c1 ≤ 0xBF) && isCont c2 && isCont c3 && validUtf8 r
      | _ => false
    else if b ≤ 0xF3 then
      match rest with
      | c1 :: c2 :: c3 :: r => isCont c1 && isCont c2 && isCont c3 && validUtf8 r
      | _ => false
    else if b = 0xF4 then
      match rest with
      | c1 :: c2 :: c3 :: r =>
          (0x80 ≤ c1 && c1 ≤ 0x8F) && isCont c2 && isCont c3 && validUtf8 r
      | _ => false
    else false

/-! ## Host side: Cinema4DMCPServer (c4d_plugin.py) -/

/-- A scene object created through the bridge.  `objType` is the name of the
`c4d` object constant the type map selected; position, rotation and scale
hold the raw parameter values that were handed to the `c4d` API (the
floating-point `c4d.Vector` / `c4d.utils.Rad` conversion is outside the
repository and is not modelled). -/
structure SceneObj where
  name : Json
  objType : String
  pos : Option Json
  rot : Option Json
  scale : Option Json
deriving Repr

/-- The Cinema 4D document as far as the bridge touches it. -/
structure Doc where
  objects : List SceneObj
deriving Repr

/-- The mutable application state read via `documents.GetActiveDocument()`
at the start of every command. -/
structure App where
  activeDoc : Doc
deriving Repr

/-- External effects: the bodies of the handlers whose work consists of
calls into the `c4d` API (scene queries, materials, rendering, screenshots,
animation, exec, import/export, chat over scene data).  Each such body in
`c4d_plugin.py` is wrapped in `try/except Exception` and returns a dict, so
no exception can escape it: the model is a total function from the bound
keyword arguments and the document to a JSON result and updated document. -/
structure Ext where
  run : String → List (String × Json) → Doc → Json × Doc

/-- Python indexing `j[i]`, as used by `position[0]` etc. in
`create_object`. -/
def pyIndex (j : Json) (i : Nat) : Except String Json :=
  match j with
  | Json.arr xs =>
    match xs.get? i with
    | some x => Except.ok x
    | none => Except.error "list index out of range"
  | Json.str s =>
    match s.data.get? i with
    | some c => Except.ok (Json.str (String.mk [c]))
    | none => Except.error "string index out of range"
  | other => Except.error (pyTypeName other ++ " object is not subscriptable")

/-- Evaluation of `x[0], x[1], x[2]` (the three components handed to
`c4d.Vector`). -/
def pyTriple (j : Json) : Except String (Json × Json × Json) := do
  let a ← pyIndex j 0
  let b ← pyIndex j 1
  let c ← pyIndex j 2
  pure (a, b, c)

/-- ASCII lowering of one character (`str.lower()` component; the object
type strings the handler compares against are all ASCII). -/
def pyCharLower (c : Char) : Char :=
  if 65 ≤ c.toNat ∧ c.toNat ≤ 90 then Char.ofNat (c.toNat + 32) else c

/-- Python `str.lower()`. -/
def pyLower (s : String) : String := String.mk (s.data.map pyCharLower)

/-- The `type_map` of `Cinema4DMCPServer.create_object`, mapping the lowered
`object_type` argument to the `c4d` object constant (constants are referred
to by their names). -/
def typeMap : List (String × String) :=
  [("cube", "Ocube"), ("sphere", "Osphere"), ("cylinder", "Ocylinder"),
   ("cone", "Ocone"), ("plane", "Oplane"), ("null", "Onull"),
   ("camera", "Ocamera"), ("light", "Olight")]

/-- Body of `Cinema4DMCPServer.create_object` (the code inside its `try`):
any `Except.error` models an exception that the surrounding `except` clause
converts to an error dict. -/
def create_object_body (args : List (String × Json)) (app : App) :
    Except String (Json × App) := do
  let object_type := (pyGet args "object_type").getD Json.null
  let name := (pyGet args "name").getD Json.null
  let position := (pyGet args "position").getD Json.null
  let rotation := (pyGet args "rotation").getD Json.null
  let scale := (pyGet args "scale").getD Json.null
  match object_type with
  | Json.str s =>
    match typeMap.find? (fun p => p.1 == pyLower s) with
    | none => pure (Json.obj [("error", Json.str ("Unknown object type: " ++ s))], app)
    | some p => do
      let pos ← if pyTruthy position then do
          let _ ← pyTriple position
          pure (some position)
        else pure none
      let rot ← if pyTruthy rotation then do
          let _ ← pyTriple rotation
          pure (some rotation)
        else pure none
      let scl ← if pyTruthy scale then do
          let _ ← pyTriple scale
          pure (some scale)
        else pure none
      let obj : SceneObj :=
        { name := name, objType := p.2, pos := pos, rot := rot, scale := scl }
      let doc2 : Doc := { objects := obj :: app.activeDoc.objects }
      pure (Json.obj [("name", name), ("type", object_type),
                      ("success", Json.bool true)],
            { app with activeDoc := doc2 })
  | other => Except.error (pyTypeName other ++ " object has no attribute lower")

/-- `Cinema4DMCPServer.create_object`: the whole body is wrapped in
`try/except Exception as e: return ("error": str(e))`. -/
def create_object (args : List (String × Json)) (app : App) : Json × App :=
  match create_object_body args app with
  | Except.ok r => r
  | Except.error m => (Json.obj [("error", Json.str m)], app)

/-- Result of `Cinema4DMCPServer.get_chat_status` (a fixed dict). -/
def chatStatusResult : Json :=
  Json.obj [("enabled", Json.bool true),
            ("message", Json.str "Chat is enabled. You can have conversational interactions with Cinema 4D!")]

/-- The keys of the `handlers` dict built in
`Cinema4DMCPServer.execute_command`, in source order. -/
def handlerNames : List String :=
  ["ping", "get_scene_info", "get_object_info", "create_object",
   "modify_object", "delete_object", "create_material", "apply_material",
   "get_viewport_screenshot", "render_frame", "set_animation_frame",
   "create_keyframe", "execute_code", "export_scene", "import_file",
   "get_chat_status", "process_chat"]

/-- Keyword signature of each handler method (parameter names with their
default values), taken from the `def` lines in `c4d_plugin.py`; `none`
means the parameter is required. -/
def handlerSig : String → List (String × Option Json)
  | "ping" => []
  | "get_scene_info" => [("include_hierarchy", some (Json.bool false))]
  | "get_object_info" => [("name", none)]
  | "create_object" =>
      [("object_type", none), ("name", none), ("position", some Json.null),
       ("rotation", some Json.null), ("scale", some Json.null)]
  | "modify_object" =>
      [("name", none), ("position", some Json.null), ("rotation", some Json.null),
       ("scale", some Json.null), ("properties", some Json.null)]
  | "delete_object" => [("name", none)]
  | "create_material" =>
      [("name", none), ("color", some Json.null), ("reflectance", some (Json.num 0)),
       ("roughness", some (Json.num (1/2))), ("metallic", some (Json.num 0)),
       ("opacity", some (Json.num 1))]
  | "apply_material" => [("object_name", none), ("material_name", none)]
  | "get_viewport_screenshot" =>
      [("width", some (Json.num 1920)), ("height", some (Json.num 1080)),
       ("filepath", some Json.null)]
  | "render_frame" =>
      [("width", some (Json.num 1920)), ("height", some (Json.num 1080)),
       ("renderer", some (Json.str "standard")), ("samples", some (Json.num 100)),
       ("filepath", some Json.null)]
  | "set_animation_frame" => [("frame", none)]
  | "create_keyframe" =>
      [("object_name", none), ("parameter", none), ("value", none), ("frame", none)]
  | "execute_code" => [("code", none)]
  | "export_scene" => [("filepath", none), ("format", some (Json.str "c4d"))]
  | "import_file" => [("filepath", none), ("merge", some (Json.bool true))]
  | "get_chat_status" => []
  | "process_chat" =>
      [("message", none), ("include_scene_context", some (Json.bool true)),
       ("history", some Json.null)]
  | _ => []

/-- Names joined as Python lists them in a missing-argument TypeError. -/
def joinNames : List String → String
  | [] => ""
  | [a] => a
  | [a, b] => a ++ " and " ++ b
  | a :: rest => a ++ ", " ++ joinNames rest

/-- Binding of `handler(**params)`: Python raises a TypeError for an
unexpected keyword and for missing required parameters, otherwise every
parameter receives the supplied value or its default.  (Python quotes
argument names in these messages; the quote characters are omitted.) -/
def bindKwargs (fname : String) (sig : List (String × Option Json))
    (kw : List (String × Json)) : Except String (List (String × Json)) :=
  match kw.find? (fun p => (sig.find? (fun q => q.1 == p.1)).isNone) with
  | some p =>
      Except.error (fname ++ "() got an unexpected keyword argument " ++ p.1)
  | none =>
    let missing := (sig.filter (fun q => q.2.isNone && (pyGet kw q.1).isNone)).map Prod.fst
    if missing.isEmpty then
      Except.ok (sig.map (fun q => (q.1, (pyGet kw q.1).getD (q.2.getD Json.null))))
    else
      Except.error (fname ++ "() missing " ++ toString missing.length ++
        " required positional argument" ++
        (if missing.length == 1 then "" else "s") ++ ": " ++ joinNames missing)

/-- Invocation `handler(**params)` of the matched handler.  `ping`,
`get_chat_status` and `create_object` are modelled in full; the remaining
handlers consist of `c4d`-API calls and are delegated to `Ext` after the
keyword binding (their bodies cannot raise, see `Ext`). -/
def applyHandler (ext : Ext) (name : String) (params : Json) (app : App) :
    Except String (Json × App) :=
  match params with
  | Json.obj kw =>
    match bindKwargs name (handlerSig name) kw with
    | Except.error m => Except.error m
    | Except.ok args =>
      if name = "ping" then
        Except.ok (Json.obj [("status", Json.str "alive")], app)
      else if name = "get_chat_status" then
        Except.ok (chatStatusResult, app)
      else if name = "create_object" then
        Except.ok (create_object args app)
      else
        let rd := ext.run name args app.activeDoc
        Except.ok (rd.1, { app with activeDoc := rd.2 })
  | other =>
      Except.error ("argument after ** must be a mapping, not " ++ pyTypeName other)

/-- Success envelope `("status": "success", "result": r)`. -/
def mkSuccessResp (r : Json) : Json :=
  Json.obj [("status", Json.str "success"), ("result", r)]

/-- Failure envelope `("status": "error", "message": m)`. -/
def mkErrorResp (m : String) : Json :=
  Json.obj [("status", Json.str "error"), ("message", Json.str m)]

/-- `Cinema4DMCPServer.execute_command`: reads `type` and `params` from the
command, re-resolves the active document, looks the name up in the handler
table, runs the handler catching every exception, and never raises itself
(both `try` blocks funnel exceptions into an error envelope). -/
def execute_command (ext : Ext) (app : App) (command : Json) : Json × App :=
  match command with
  | Json.obj fields =>
    let cmdType := pyGet fields "type"
    let params := (pyGet fields "params").getD (Json.obj [])
    match cmdType with
    | some (Json.arr _) => (mkErrorResp "unhashable type: list", app)
    | some (Json.obj _) => (mkErrorResp "unhashable type: dict", app)
    | some (Json.str s) =>
      if s ∈ handlerNames then
        match applyHandler ext s params app with
        | Except.ok r => (mkSuccessResp r.1, r.2)
        | Except.error m => (mkErrorResp m, app)
      else
        (mkErrorResp ("Unknown command type: " ++ s), app)
    | other => (mkErrorResp ("Unknown command type: " ++ pyStrOpt other), app)
  | other => (mkErrorResp (pyTypeName other ++ " object has no attribute get"), app)

/-- One network event seen by the host handler thread: `recv` returning a
byte string (the empty string is end-of-stream) or `recv` raising. -/
inductive HEvent where
  | recv (bs : List Nat)
  | recvErr
deriving Repr, DecidableEq

/-- Observable outcome of a run of the handler loop: the responses produced
by the dispatcher in order, the subset actually written to the socket, the
final receive buffer, the final application state, and the events left
unconsumed when the loop exited (the connection is closed by the `finally`
block in every case). -/
structure HandleResult where
  responses : List Json
  sent : List Json
  buffer : List Nat
  app : App
  leftover : List HEvent
deriving Repr

/-- `Cinema4DMCPServer._handle_client`: accumulate received bytes; after
each chunk run `json.loads(buffer.decode("utf-8"))` on the whole buffer:
on `JSONDecodeError` keep the buffer and keep reading; on success clear the
buffer, dispatch, and attempt to send the response (a send failure is
caught and only logged); `recv` returning no data or raising breaks the
loop; bytes that are not valid UTF-8 make `buffer.decode` raise
`UnicodeDecodeError`, which the `except json.JSONDecodeError` clause does
not catch, so the outer `except Exception` breaks the loop.  `sends` feeds
the outcome of each `sendall` in order (exhaustion of `events` models the
`self.running` flag being cleared). -/
def handle_client (ext : Ext) (jsonLoads : List Nat → Option Json) :
    List HEvent → List Bool → List Nat → App → HandleResult
  | [], _, buf, app => ⟨[], [], buf, app, []⟩
  | HEvent.recvErr :: rest, _, buf, app => ⟨[], [], buf, app, rest⟩
  | HEvent.recv bs :: rest, sends, buf, app =>
    if bs.isEmpty then ⟨[], [], buf, app, rest⟩
    else
      let buf1 := buf ++ bs
      if validUtf8 buf1 then
        match jsonLoads buf1 with
        | none => handle_client ext jsonLoads rest sends buf1 app
        | some cmd =>
          let rp := execute_command ext app cmd
          let r := handle_client ext jsonLoads rest sends.tail [] rp.2
          ⟨rp.1 :: r.responses,
           (if sends.headD true then [rp.1] else []) ++ r.sent,
           r.buffer, r.app, r.leftover⟩
      else ⟨[], [], buf1, app, rest⟩

/-- The sequence of commands the framing algorithm of `handle_client`
decodes from an event trace (same traversal, commands only). -/
def framedCommands (jsonLoads : List Nat → Option Json) :
    List HEvent → List Nat → List Json
  | [], _ => []
  | HEvent.recvErr :: _, _ => []
  | HEvent.recv bs :: rest, buf =>
    if bs.isEmpty then []
    else
      let buf1 := buf ++ bs
      if validUtf8 buf1 then
        match jsonLoads buf1 with
        | none => framedCommands jsonLoads rest buf1
        | some c => c :: framedCommands jsonLoads rest []
      else []

/-- Sequential dispatch of a list of commands, threading the application
state (the reference behaviour the handler loop must agree with). -/
def execAll (ext : Ext) : App → List Json → List Json × App
  | app, [] => ([], app)
  | app, c :: cs =>
    let rp := execute_command ext app c
    let rs := execAll ext rp.2 cs
    (rp.1 :: rs.1, rs.2)

/-! ## Client side: Cinema4DConnection (src/cinema4d_mcp/server.py) -/

/-- Classes of Python exceptions the client code distinguishes in its
`except` clauses: the `ConnectionError` family, `socket.timeout`,
`UnicodeDecodeError`, and plain `Exception` with a message. -/
inductive PyExc where
  | connError (msg : String)
  | timeoutErr
  | unicodeError
  | exc (msg : String)
deriving Repr, DecidableEq

/-- `str(e)` of a client-side exception (the unicode message stands for the
text of Python's `UnicodeDecodeError`). -/
def pyExcStr : PyExc → String
  | PyExc.connError m => m
  | PyExc.timeoutErr => "timed out"
  | PyExc.unicodeError => "utf-8 codec error while decoding accumulated bytes"
  | PyExc.exc m => m

/-- One outcome of `sock.recv` inside `receive_full_response`: a byte chunk
(the empty chunk is the peer closing), a `socket.timeout`, or a raised
connection error. -/
inductive CEvent where
  | chunk (bs : List Nat)
  | timeout
  | connErr (msg : String)
deriving Repr, DecidableEq

/-- The code after the receive loop of
`Cinema4DConnection.receive_full_response`: with no chunks raise
"No data received"; otherwise one final `json.loads(data.decode("utf-8"))`
over the accumulated bytes — success returns the bytes, `JSONDecodeError`
raises "Incomplete JSON response received", and invalid UTF-8 lets
`UnicodeDecodeError` propagate. -/
def afterRecvLoop (jsonLoads : List Nat → Option Json) (acc : List Nat) :
    Except PyExc (List Nat) :=
  if acc.isEmpty then Except.error (PyExc.exc "No data received")
  else if validUtf8 acc then
    match jsonLoads acc with
    | some _ => Except.ok acc
    | none => Except.error (PyExc.exc "Incomplete JSON response received")
  else Except.error PyExc.unicodeError

/-- The receive loop of `Cinema4DConnection.receive_full_response`: each
chunk is appended and the whole accumulation is decoded; success returns the
bytes, `JSONDecodeError` keeps reading, a timeout breaks to the final
decode, an empty chunk with nothing accumulated raises, an empty chunk
otherwise breaks to the final decode, and connection errors re-raise.
`none` means the event trace ended with the loop still blocked in `recv`. -/
def recvLoop (jsonLoads : List Nat → Option Json) :
    List CEvent → List Nat → Option (Except PyExc (List Nat))
  | [], _ => none
  | CEvent.timeout :: _, acc => some (afterRecvLoop jsonLoads acc)
  | CEvent.connErr m :: _, _ => some (Except.error (PyExc.connError m))
  | CEvent.chunk bs :: rest, acc =>
    if bs.isEmpty then
      if acc.isEmpty then
        some (Except.error (PyExc.exc "Connection closed before receiving any data"))
      else some (afterRecvLoop jsonLoads acc)
    else
      let acc1 := acc ++ bs
      if validUtf8 acc1 then
        match jsonLoads acc1 with
        | some _ => some (Except.ok acc1)
        | none => recvLoop jsonLoads rest acc1
      else some (Except.error PyExc.unicodeError)

/-- `Cinema4DConnection.receive_full_response` (chunks start empty). -/
def receive_full_response (jsonLoads : List Nat → Option Json)
    (events : List CEvent) : Option (Except PyExc (List Nat)) :=
  recvLoop jsonLoads events []

/-- Outcome of the `sock.sendall` call in `send_command`. -/
inductive SendallRes where
  | ok
  | timeoutR
  | connErr (msg : String)
  | otherErr (msg : String)
deriving Repr, DecidableEq

/-- The transport behaviour a single `send_command` call observes: whether
a `connect()` attempt would succeed, the outcome of `sendall`, and the
`recv` events of the response. -/
structure NetCtx where
  connectOk : Bool
  sendRes : SendallRes
  recvEvents : List CEvent
deriving Repr

/-- Client connection state: whether `self.sock` currently holds a socket
(host, port and timeout are fixed constants in the source). -/
structure Conn where
  sockSome : Bool
deriving Repr, DecidableEq

/-- `Cinema4DConnection.connect`: `True` immediately when a socket is held,
otherwise attempt to connect, clearing `self.sock` on failure. -/
def Conn.connect (c : Conn) (ok : Bool) : Bool × Conn :=
  if c.sockSome then (true, c)
  else if ok then (true, { sockSome := true })
  else (false, { sockSome := false })

/-- Message of the (unreachable) `except json.JSONDecodeError` branch of
`send_command`; the suffix stands for `str(e)` of the decode error. -/
def invalidRespMsg : String := "Invalid response from Cinema 4D: Expecting value"

/-- `response.get("message", "Unknown error from Cinema 4D")` rendered by
`str` when re-raised. -/
def statusErrMsg (fs : List (String × Json)) : String :=
  match pyGet fs "message" with
  | some (Json.str m) => m
  | some j => pyStr j
  | none => "Unknown error from Cinema 4D"

/-- The test `response.get("status") == "error"` of `send_command`. -/
def isErrorStatus (fs : List (String × Json)) : Bool :=
  match pyGet fs "status" with
  | some (Json.str s) => s == "error"
  | _ => false

/-- Handling of the parsed response in `send_command`: an error envelope is
re-raised (the raise happens inside the `try`, so the generic `except`
wraps it and clears the socket); any other dict yields its `result`
payload with the socket kept; a non-dict response makes
`response.get("status")` raise `AttributeError`, again wrapped by the
generic `except`. -/
def handleParsedResponse (resp : Json) (keep : Conn) : Except PyExc Json × Conn :=
  match resp with
  | Json.obj fs =>
    if isErrorStatus fs then
      (Except.error (PyExc.exc ("Communication error with Cinema 4D: " ++ statusErrMsg fs)),
       { sockSome := false })
    else
      (Except.ok ((pyGet fs "result").getD (Json.obj [])), keep)
  | other =>
    (Except.error (PyExc.exc ("Communication error with Cinema 4D: " ++ pyTypeName other ++ " object has no attribute get")),
     { sockSome := false })

/-- `Cinema4DConnection.send_command`: ensure a socket (raising
`ConnectionError` when absent and unconnectable), send the encoded command,
receive the full response, parse it, raise on an error envelope, and return
the `result` payload.  Every failure inside the `try` clears `self.sock`
except the `json.JSONDecodeError` branch, which re-raises without clearing.
`none` means the call is still blocked receiving. -/
def send_command (jsonLoads : List Nat → Option Json) (c : Conn) (net : NetCtx)
    (_cmdType : String) (_params : Option Json) :
    Option (Except PyExc Json × Conn) :=
  let oc := c.connect net.connectOk
  if oc.1 then
    match net.sendRes with
    | SendallRes.timeoutR =>
        some (Except.error (PyExc.exc "Timeout waiting for Cinema 4D response - operation may be too complex"),
              { sockSome := false })
    | SendallRes.connErr m =>
        some (Except.error (PyExc.exc ("Connection to Cinema 4D lost: " ++ m)),
              { sockSome := false })
    | SendallRes.otherErr m =>
        some (Except.error (PyExc.exc ("Communication error with Cinema 4D: " ++ m)),
              { sockSome := false })
    | SendallRes.ok =>
      match receive_full_response jsonLoads net.recvEvents with
      | none => none
      | some (Except.error PyExc.timeoutErr) =>
          some (Except.error (PyExc.exc "Timeout waiting for Cinema 4D response - operation may be too complex"),
                { sockSome := false })
      | some (Except.error (PyExc.connError m)) =>
          some (Except.error (PyExc.exc ("Connection to Cinema 4D lost: " ++ m)),
                { sockSome := false })
      | some (Except.error e) =>
          some (Except.error (PyExc.exc ("Communication error with Cinema 4D: " ++ pyExcStr e)),
                { sockSome := false })
      | some (Except.ok data) =>
        if validUtf8 data then
          match jsonLoads data with
          | none => some (Except.error (PyExc.exc invalidRespMsg), oc.2)
          | some resp => some (handleParsedResponse resp oc.2)
        else
          some (Except.error (PyExc.exc ("Communication error with Cinema 4D: " ++ pyExcStr PyExc.unicodeError)),
                { sockSome := false })
  else
    some (Except.error (PyExc.connError "Not connected to Cinema 4D"), oc.2)

/-- The `if _c4d_connection is None:` block of `get_cinema4d_connection`:
build a fresh `Cinema4DConnection` and connect; on failure clear the global
and raise. -/
def createFreshConnection (connectOk : Bool) : Except PyExc Conn × Option Conn :=
  if connectOk then (Except.ok { sockSome := true }, some { sockSome := true })
  else (Except.error (PyExc.exc "Could not connect to Cinema 4D. Make sure the Cinema 4D plugin is running."),
        none)

/-- `get_cinema4d_connection`: validate a cached connection with a `ping`
`send_command`; on any exception disconnect it, clear the global and fall
through to creating a fresh connection.  Returns the acquired connection (or
the raised exception) together with the new value of the global
`_c4d_connection`. -/
def get_cinema4d_connection (jsonLoads : List Nat → Option Json)
    (g : Option Conn) (pingNet : NetCtx) (connectOk : Bool) :
    Option (Except PyExc Conn × Option Conn) :=
  match g with
  | some conn =>
    match send_command jsonLoads conn pingNet "ping" none with
    | none => none
    | some (Except.ok _r, conn2) => some (Except.ok conn2, some conn2)
    | some (Except.error _e, _conn2) => some (createFreshConnection connectOk)
  | none => some (createFreshConnection connectOk)

/-! ## Chat store: ChatManager (src/cinema4d_mcp/chat_manager.py) -/

/-- `ChatMessage`: the timestamp is the `datetime.now().isoformat()` value
supplied by the caller as an explicit clock input. -/
structure ChatMessage where
  role : String
  content : String
  timestamp : String
  metadata : List (String × Json)
deriving Repr

/-- `ChatManager` state. -/
structure ChatManager where
  history : List ChatMessage
  max_history : Nat
  context_data : List (String × Json)
  session_id : String
deriving Repr

/-- Python slice `xs[-m:]` on a list (for `m = 0` the slice is the whole
list). -/
def pySliceLast (m : Nat) (xs : List ChatMessage) : List ChatMessage :=
  if m = 0 then xs else xs.drop (xs.length - m)

/-- `ChatManager.add_message`: append, then trim to the last `max_history`
entries whenever the length exceeds the bound; `now` is the clock input for
the new message's timestamp. -/
def ChatManager.add_message (cm : ChatManager) (role content : String)
    (metadata : Option (List (String × Json))) (now : String) :
    ChatManager × ChatMessage :=
  let message : ChatMessage :=
    { role := role, content := content, timestamp := now,
      metadata := metadata.getD [] }
  let h := cm.history ++ [message]
  ({ cm with
      history := if cm.max_history < h.length then pySliceLast cm.max_history h else h },
   message)

/-- `ChatManager.clear_history`. -/
def ChatManager.clear_history (cm : ChatManager) : ChatManager :=
  { cm with history := [] }

/-- `ChatManager.clear_context`. -/
def ChatManager.clear_context (cm : ChatManager) : ChatManager :=
  { cm with context_data := [] }

/-- Python dict assignment `d[k] = v` (replace in place or append). -/
def pySetKey (fs : List (String × Json)) (k : String) (v : Json) :
    List (String × Json) :=
  if (pyGet fs k).isSome then fs.map (fun p => if p.1 == k then (p.1, v) else p)
  else fs ++ [(k, v)]

/-- `ChatManager.update_context`. -/
def ChatManager.update_context (cm : ChatManager) (k : String) (v : Json) :
    ChatManager :=
  { cm with context_data := pySetKey cm.context_data k v }

/-- `ChatManager.reset` (`now` is the new session id timestamp). -/
def ChatManager.reset (cm : ChatManager) (now : String) : ChatManager :=
  { cm.clear_history.clear_context with session_id := now }

/-- `ChatManager.import_history`: installs the session id, messages and
context parsed from the file, replacing `history` without any trimming. -/
def ChatManager.import_history (cm : ChatManager) (session_id : Option String)
    (messages : List ChatMessage) (context : List (String × Json)) :
    ChatManager :=
  { cm with session_id := session_id.getD cm.session_id,
            history := messages, context_data := context }

/-- Arguments of one `add_message` call (with its clock input). -/
structure AddCall where
  role : String
  content : String
  metadata : Option (List (String × Json))
  now : String
deriving Repr

/-- The `ChatMessage` an `add_message` call constructs. -/
def mkMessage (a : AddCall) : ChatMessage :=
  { role := a.role, content := a.content, timestamp := a.now,
    metadata := a.metadata.getD [] }

/-- A sequence of `add_message` calls. -/
def addAll (cm : ChatManager) : List AddCall → ChatManager
  | [] => cm
  | a :: rest => addAll (cm.add_message a.role a.content a.metadata a.now).1 rest

/-! ## Concrete fixtures used by witnesses and counterexamples -/

/-- External-effect instance for concrete runs (only `ping`,
`get_chat_status` and `create_object` are exercised, none of which reach
`Ext`). -/
def ext0 : Ext := ⟨fun _ _ d => (Json.null, d)⟩

/-- An application state with an empty document. -/
def app0 : App := ⟨⟨[]⟩⟩

/-- The ping command document. -/
def pingCmd : Json := Json.obj [("type", Json.str "ping"), ("params", Json.obj [])]

/-- The response the dispatcher produces for `pingCmd`. -/
def pingResp : Json := mkSuccessResp (Json.obj [("status", Json.str "alive")])

/-- A concrete instance of `json.loads` defined on the inputs the witness
traces use: byte 49 carries the ping command, byte 50 a command with an
unregistered name. -/
def jl0 : List Nat → Option Json := fun bs =>
  if bs = [49] then some pingCmd
  else if bs = [50] then
    some (Json.obj [("type", Json.str "bogus_command"), ("params", Json.obj [])])
  else if bs = [51] then
    some (Json.obj [("type", Json.str "ping"),
                    ("params", Json.obj [("x", Json.null)])])
  else none

/-- A concrete instance of `json.loads` for client-side witnesses: byte 49
carries a success envelope. -/
def jl1 : List Nat → Option Json := fun bs =>
  if bs = [49] then some pingResp else none

/-! ## Helper lemmas on the handler loop -/

/-- Event trace exhausted (the running flag was cleared): the loop ends. -/
theorem handle_client_nil (ext : Ext) (jl : List Nat → Option Json)
    (sends : List Bool) (buf : List Nat) (app : App) :
    handle_client ext jl [] sends buf app = ⟨[], [], buf, app, []⟩ := rfl

/-- A `recv` that raises breaks the loop. -/
theorem handle_client_recvErr (ext : Ext) (jl : List Nat → Option Json)
    (rest : List HEvent) (sends : List Bool) (buf : List Nat) (app : App) :
    handle_client ext jl (HEvent.recvErr :: rest) sends buf app
      = ⟨[], [], buf, app, rest⟩ := rfl

/-- A `recv` returning no data (EOF) breaks the loop. -/
theorem handle_client_eof (ext : Ext) (jl : List Nat → Option Json)
    (bs : List Nat) (rest : List HEvent) (sends : List Bool) (buf : List Nat)
    (app : App) (h : bs.isEmpty = true) :
    handle_client ext jl (HEvent.recv bs :: rest) sends buf app
      = ⟨[], [], buf, app, rest⟩ := by
  simp [handle_client, h]

/-- Accumulated bytes that are not valid UTF-8: `buffer.decode` raises
`UnicodeDecodeError`, the outer `except` breaks the loop. -/
theorem handle_client_invalid_utf8 (ext : Ext) (jl : List Nat → Option Json)
    (bs : List Nat) (rest : List HEvent) (sends : List Bool) (buf : List Nat)
    (app : App) (hb : bs.isEmpty = false)
    (hv : validUtf8 (buf ++ bs) = false) :
    handle_client ext jl (HEvent.recv bs :: rest) sends buf app
      = ⟨[], [], buf ++ bs, app, rest⟩ := by
  simp [handle_client, hb, hv]

/-- `json.loads` fails on the accumulated buffer: the buffer is kept and
the loop keeps reading. -/
theorem handle_client_keep (ext : Ext) (jl : List Nat → Option Json)
    (bs : List Nat) (rest : List HEvent) (sends : List Bool) (buf : List Nat)
    (app : App) (hb : bs.isEmpty = false)
    (hv : validUtf8 (buf ++ bs) = true) (hd : jl (buf ++ bs) = none) :
    handle_client ext jl (HEvent.recv bs :: rest) sends buf app
      = handle_client ext jl rest sends (buf ++ bs) app := by
  simp [handle_client, hb, hv, hd]

/-- `json.loads` succeeds on the accumulated buffer: the whole buffer is
one command, the buffer resets, one response is produced (and written when
the send succeeds), and the loop continues. -/
theorem handle_client_decode (ext : Ext) (jl : List Nat → Option Json)
    (bs : List Nat) (rest : List HEvent) (sends : List Bool) (buf : List Nat)
    (app : App) (cmd : Json) (hb : bs.isEmpty = false)
    (hv : validUtf8 (buf ++ bs) = true) (hd : jl (buf ++ bs) = some cmd) :
    handle_client ext jl (HEvent.recv bs :: rest) sends buf app
      = { responses := (execute_command ext app cmd).1 ::
            (handle_client ext jl rest sends.tail [] (execute_command ext app cmd).2).responses,
          sent := (if sends.headD true then [(execute_command ext app cmd).1] else []) ++
            (handle_client ext jl rest sends.tail [] (execute_command ext app cmd).2).sent,
          buffer := (handle_client ext jl rest sends.tail [] (execute_command ext app cmd).2).buffer,
          app := (handle_client ext jl rest sends.tail [] (execute_command ext app cmd).2).app,
          leftover := (handle_client ext jl rest sends.tail [] (execute_command ext app cmd).2).leftover } := by
  simp [handle_client, hb, hv, hd]

/-! ## Claims -/

/-- C8: the Command
`("type": "create_object", "params": ("object_type": "bogus", "name": "X"))`
yields `("status": "success", "result": ("error": "Unknown object type: bogus"))`
— the handler-level soft error wrapped in a Success envelope, not a
dispatcher-level Failure — and leaves the application state unchanged. -/
theorem create_object_unknown_type_soft_error (ext : Ext) (app : App) :
    execute_command ext app
        (Json.obj [("type", Json.str "create_object"),
                   ("params", Json.obj [("object_type", Json.str "bogus"),
                                        ("name", Json.str "X")])])
      = (Json.obj [("status", Json.str "success"),
                   ("result", Json.obj [("error", Json.str "Unknown object type: bogus")])],
         app) := rfl

/-- C2: a Command whose name is not in the dispatch table gets the error
response `("status": "error", "message": "Unknown command type: <name>")`
(never a transport-level failure), the handler loop is not terminated by it,
and a subsequent valid Command on the same connection is still dispatched
and answered normally. -/
theorem unknown_command_soft_error (ext : Ext) (jl : List Nat → Option Json)
    (name : String) (hname : name ∉ handlerNames) (params cmd2 : Json)
    (app : App) (b1 b2 : List Nat)
    (hb1 : b1.isEmpty = false) (hv1 : validUtf8 b1 = true)
    (hd1 : jl b1 = some (Json.obj [("type", Json.str name), ("params", params)]))
    (hb2 : b2.isEmpty = false) (hv2 : validUtf8 b2 = true)
    (hd2 : jl b2 = some cmd2) :
    execute_command ext app (Json.obj [("type", Json.str name), ("params", params)])
      = (mkErrorResp ("Unknown command type: " ++ name), app)
    ∧ (handle_client ext jl [HEvent.recv b1, HEvent.recv b2] [true, true] [] app).responses
        = [mkErrorResp ("Unknown command type: " ++ name), (execute_command ext app cmd2).1]
    ∧ (handle_client ext jl [HEvent.recv b1, HEvent.recv b2] [true, true] [] app).sent
        = [mkErrorResp ("Unknown command type: " ++ name), (execute_command ext app cmd2).1]
    ∧ (handle_client ext jl [HEvent.recv b1, HEvent.recv b2] [true, true] [] app).leftover = [] := by
  have hexec : execute_command ext app (Json.obj [("type", Json.str name), ("params", params)])
      = (mkErrorResp ("Unknown command type: " ++ name), app) := by
    simp [execute_command, pyGet, hname]
  have step2 : handle_client ext jl [HEvent.recv b2] [true] [] app
      = ⟨[(execute_command ext app cmd2).1], [(execute_command ext app cmd2).1],
         [], (execute_command ext app cmd2).2, []⟩ := by
    rw [handle_client_decode ext jl b2 [] [true] [] app cmd2 hb2
          (by simpa using hv2) (by simpa using hd2)]
    simp [handle_client]
  have step1 : handle_client ext jl [HEvent.recv b1, HEvent.recv b2] [true, true] [] app
      = ⟨[mkErrorResp ("Unknown command type: " ++ name), (execute_command ext app cmd2).1],
         [mkErrorResp ("Unknown command type: " ++ name), (execute_command ext app cmd2).1],
         [], (execute_command ext app cmd2).2, []⟩ := by
    rw [handle_client_decode ext jl b1 [HEvent.recv b2] [true, true] [] app _ hb1
          (by simpa using hv1) (by simpa using hd1), hexec]
    simp [step2]
  exact ⟨hexec, by rw [step1], by rw [step1], by rw [step1]⟩

/-- Witness for C2 at the unregistered name `bogus_command`. -/
theorem unknown_command_soft_error_witness :
    execute_command ext0 app0
        (Json.obj [("type", Json.str "bogus_command"), ("params", Json.obj [])])
      = (mkErrorResp ("Unknown command type: " ++ "bogus_command"), app0)
    ∧ (handle_client ext0 jl0 [HEvent.recv [50], HEvent.recv [49]] [true, true] [] app0).responses
        = [mkErrorResp ("Unknown command type: " ++ "bogus_command"),
           (execute_command ext0 app0 pingCmd).1]
    ∧ (handle_client ext0 jl0 [HEvent.recv [50], HEvent.recv [49]] [true, true] [] app0).sent
        = [mkErrorResp ("Unknown command type: " ++ "bogus_command"),
           (execute_command ext0 app0 pingCmd).1]
    ∧ (handle_client ext0 jl0 [HEvent.recv [50], HEvent.recv [49]] [true, true] [] app0).leftover = [] :=
  unknown_command_soft_error ext0 jl0 "bogus_command" (by decide) (Json.obj [])
    pingCmd app0 [50] [49] rfl rfl rfl rfl rfl rfl

/-- C3: when the invoked handler raises, `execute_command` catches the
exception and returns `("status": "error", "message": str(e))`; nothing
propagates, the handler loop is not terminated, and a later Command on the
same connection still succeeds. -/
theorem handler_exception_soft_error (ext : Ext) (jl : List Nat → Option Json)
    (name : String) (hname : name ∈ handlerNames) (params cmd2 : Json)
    (app : App) (msg : String)
    (hraise : applyHandler ext name params app = Except.error msg)
    (b1 b2 : List Nat)
    (hb1 : b1.isEmpty = false) (hv1 : validUtf8 b1 = true)
    (hd1 : jl b1 = some (Json.obj [("type", Json.str name), ("params", params)]))
    (hb2 : b2.isEmpty = false) (hv2 : validUtf8 b2 = true)
    (hd2 : jl b2 = some cmd2) :
    execute_command ext app (Json.obj [("type", Json.str name), ("params", params)])
      = (mkErrorResp msg, app)
    ∧ (handle_client ext jl [HEvent.recv b1, HEvent.recv b2] [true, true] [] app).responses
        = [mkErrorResp msg, (execute_command ext app cmd2).1]
    ∧ (handle_client ext jl [HEvent.recv b1, HEvent.recv b2] [true, true] [] app).sent
        = [mkErrorResp msg, (execute_command ext app cmd2).1]
    ∧ (handle_client ext jl [HEvent.recv b1, HEvent.recv b2] [true, true] [] app).leftover = [] := by
  have hexec : execute_command ext app (Json.obj [("type", Json.str name), ("params", params)])
      = (mkErrorResp msg, app) := by
    simp [execute_command, pyGet, hname, hraise]
  have step2 : handle_client ext jl [HEvent.recv b2] [true] [] app
      = ⟨[(execute_command ext app cmd2).1], [(execute_command ext app cmd2).1],
         [], (execute_command ext app cmd2).2, []⟩ := by
    rw [handle_client_decode ext jl b2 [] [true] [] app cmd2 hb2
          (by simpa using hv2) (by simpa using hd2)]
    simp [handle_client]
  have step1 : handle_client ext jl [HEvent.recv b1, HEvent.recv b2] [true, true] [] app
      = ⟨[mkErrorResp msg, (execute_command ext app cmd2).1],
         [mkErrorResp msg, (execute_command ext app cmd2).1],
         [], (execute_command ext app cmd2).2, []⟩ := by
    rw [handle_client_decode ext jl b1 [HEvent.recv b2] [true, true] [] app _ hb1
          (by simpa using hv1) (by simpa using hd1), hexec]
    simp [step2]
  exact ⟨hexec, by rw [step1], by rw [step1], by rw [step1]⟩

/-- Witness for C3: `ping` invoked with an unexpected keyword argument
raises a TypeError at the `handler(**params)` binding. -/
theorem handler_exception_soft_error_witness :
    execute_command ext0 app0
        (Json.obj [("type", Json.str "ping"),
                   ("params", Json.obj [("x", Json.null)])])
      = (mkErrorResp "ping() got an unexpected keyword argument x", app0)
    ∧ (handle_client ext0 jl0 [HEvent.recv [51], HEvent.recv [49]] [true, true] [] app0).responses
        = [mkErrorResp "ping() got an unexpected keyword argument x",
           (execute_command ext0 app0 pingCmd).1]
    ∧ (handle_client ext0 jl0 [HEvent.recv [51], HEvent.recv [49]] [true, true] [] app0).sent
        = [mkErrorResp "ping() got an unexpected keyword argument x",
           (execute_command ext0 app0 pingCmd).1]
    ∧ (handle_client ext0 jl0 [HEvent.recv [51], HEvent.recv [49]] [true, true] [] app0).leftover = [] :=
  handler_exception_soft_error ext0 jl0 "ping" (by decide)
    (Json.obj [("x", Json.null)]) pingCmd app0
    "ping() got an unexpected keyword argument x" rfl
    [51] [49] rfl rfl rfl rfl rfl rfl

/-- Two strings with different prefixes are different: helper for showing
that wrapped error messages cannot collide with the fixed message of the
JSON-decode branch of `send_command`. -/
theorem string_append_ne (s t : String) (h : t.data.take s.data.length ≠ s.data)
    (m : String) : s ++ m ≠ t := by
  intro he
  apply h
  rw [← he, String.data_append]
  exact List.take_left s.data m.data

/-- The generic-exception wrapper of `send_command` cannot produce the
JSON-decode branch message. -/
theorem comm_wrap_ne_invalid (m : String) :
    "Communication error with Cinema 4D: " ++ m ≠ invalidRespMsg :=
  string_append_ne _ _ (by decide) m

/-- The connection-error wrapper of `send_command` cannot produce the
JSON-decode branch message. -/
theorem lost_wrap_ne_invalid (m : String) :
    "Connection to Cinema 4D lost: " ++ m ≠ invalidRespMsg :=
  string_append_ne _ _ (by decide) m

/-- The final decode after the receive loop returns bytes only when they
are valid UTF-8 and `json.loads` accepts them. -/
theorem afterRecvLoop_ok (jl : List Nat → Option Json) (acc data : List Nat)
    (h : afterRecvLoop jl acc = Except.ok data) :
    validUtf8 data = true ∧ (jl data).isSome = true := by
  unfold afterRecvLoop at h
  by_cases h1 : acc.isEmpty = true
  · rw [if_pos h1] at h
    exact Except.noConfusion h
  · rw [if_neg h1] at h
    by_cases h2 : validUtf8 acc = true
    · rw [if_pos h2] at h
      cases h3 : jl acc with
      | none => rw [h3] at h; exact Except.noConfusion h
      | some j =>
        rw [h3] at h
        injection h with h4
        subst h4
        exact ⟨h2, by simp [h3]⟩
    · rw [if_neg h2] at h
      exact Except.noConfusion h

/-- Both return paths of the receive loop re-validate the accumulated bytes
with a JSON decode before returning them. -/
theorem recvLoop_ok (jl : List Nat → Option Json) (events : List CEvent)
    (acc data : List Nat)
    (h : recvLoop jl events acc = some (Except.ok data)) :
    validUtf8 data = true ∧ (jl data).isSome = true := by
  induction events generalizing acc with
  | nil => exact Option.noConfusion h
  | cons e rest ih =>
    cases e with
    | timeout =>
      simp only [recvLoop] at h
      injection h with h2
      exact afterRecvLoop_ok jl acc data h2
    | connErr m =>
      simp only [recvLoop] at h
      injection h with h2
      exact Except.noConfusion h2
    | chunk bs =>
      simp only [recvLoop] at h
      by_cases hb : bs.isEmpty = true
      · rw [if_pos hb] at h
        by_cases ha : acc.isEmpty = true
        · rw [if_pos ha] at h
          injection h with h2
          exact Except.noConfusion h2
        · rw [if_neg ha] at h
          injection h with h2
          exact afterRecvLoop_ok jl acc data h2
      · rw [if_neg hb] at h
        by_cases hv : validUtf8 (acc ++ bs) = true
        · rw [if_pos hv] at h
          cases h3 : jl (acc ++ bs) with
          | none => rw [h3] at h; exact ih (acc ++ bs) h
          | some j =>
            rw [h3] at h
            injection h with h2
            injection h2 with h4
            subst h4
            exact ⟨hv, by simp [h3]⟩
        · rw [if_neg hv] at h
          injection h with h2
          exact Except.noConfusion h2

/-- No outcome of the parsed-response handling carries the JSON-decode
branch message. -/
theorem handleParsedResponse_ne_invalid (resp : Json) (keep : Conn) :
    (handleParsedResponse resp keep).1 ≠ Except.error (PyExc.exc invalidRespMsg) := by
  cases resp with
  | obj fs =>
    simp only [handleParsedResponse]
    by_cases h4 : isErrorStatus fs = true
    · rw [if_pos h4]
      intro hEq
      injection hEq with hE
      injection hE with hm
      exact comm_wrap_ne_invalid _ hm
    · rw [if_neg h4]
      exact fun hEq => Except.noConfusion hEq
  | null =>
    intro hEq
    injection hEq with hE
    injection hE with hm
    exact comm_wrap_ne_invalid _ hm
  | bool b =>
    intro hEq
    injection hEq with hE
    injection hE with hm
    exact comm_wrap_ne_invalid _ hm
  | num q =>
    intro hEq
    injection hEq with hE
    injection hE with hm
    exact comm_wrap_ne_invalid _ hm
  | str s =>
    intro hEq
    injection hEq with hE
    injection hE with hm
    exact comm_wrap_ne_invalid _ hm
  | arr xs =>
    intro hEq
    injection hEq with hE
    injection hE with hm
    exact comm_wrap_ne_invalid _ hm

/-- C10: every byte string `receive_full_response` returns parses as one
complete JSON document (both return paths re-validate it), so the
`json.loads` in `send_command` on the returned data cannot fail and the
`except json.JSONDecodeError` branch of `send_command` is unreachable: no
outcome of `send_command` is that branch's error. -/
theorem response_bytes_always_parse (jl : List Nat → Option Json) :
    (∀ events data,
        receive_full_response jl events = some (Except.ok data) →
        validUtf8 data = true ∧ (jl data).isSome = true)
    ∧ (∀ c net ct p res c2,
        send_command jl c net ct p = some (res, c2) →
        res ≠ Except.error (PyExc.exc invalidRespMsg)) := by
  refine ⟨fun events data h => recvLoop_ok jl events [] data h, ?_⟩
  intro c net ct p res c2 h
  unfold send_command at h
  by_cases hoc : (c.connect net.connectOk).1 = true
  · rw [if_pos hoc] at h
    cases hsr : net.sendRes with
    | timeoutR =>
      rw [hsr] at h
      simp only [Option.some_inj, Prod.mk.injEq] at h
      obtain ⟨h1, -⟩ := h
      subst h1
      intro hEq
      injection hEq with hE
      injection hE with hm
      exact absurd hm (by decide)
    | connErr m =>
      rw [hsr] at h
      simp only [Option.some_inj, Prod.mk.injEq] at h
      obtain ⟨h1, -⟩ := h
      subst h1
      intro hEq
      injection hEq with hE
      injection hE with hm
      exact lost_wrap_ne_invalid m hm
    | otherErr m =>
      rw [hsr] at h
      simp only [Option.some_inj, Prod.mk.injEq] at h
      obtain ⟨h1, -⟩ := h
      subst h1
      intro hEq
      injection hEq with hE
      injection hE with hm
      exact comm_wrap_ne_invalid m hm
    | ok =>
      rw [hsr] at h
      cases hrecv : receive_full_response jl net.recvEvents with
      | none => rw [hrecv] at h; simp at h
      | some r =>
        rw [hrecv] at h
        cases r with
        | error e =>
          cases e with
          | timeoutErr =>
            simp only [Option.some_inj, Prod.mk.injEq] at h
            obtain ⟨h1, -⟩ := h
            subst h1
            intro hEq
            injection hEq with hE
            injection hE with hm
            exact absurd hm (by decide)
          | connError m =>
            simp only [Option.some_inj, Prod.mk.injEq] at h
            obtain ⟨h1, -⟩ := h
            subst h1
            intro hEq
            injection hEq with hE
            injection hE with hm
            exact lost_wrap_ne_invalid m hm
          | unicodeError =>
            simp only [Option.some_inj, Prod.mk.injEq] at h
            obtain ⟨h1, -⟩ := h
            subst h1
            intro hEq
            injection hEq with hE
            injection hE with hm
            exact comm_wrap_ne_invalid _ hm
          | exc m =>
            simp only [Option.some_inj, Prod.mk.injEq] at h
            obtain ⟨h1, -⟩ := h
            subst h1
            intro hEq
            injection hEq with hE
            injection hE with hm
            exact comm_wrap_ne_invalid _ hm
        | ok data =>
          obtain ⟨hval, hsome⟩ := recvLoop_ok jl net.recvEvents [] data hrecv
          cases h3 : jl data with
          | none => rw [h3] at hsome; exact Bool.noConfusion hsome
          | some j =>
            simp only [hval, h3, if_true, Option.some_inj] at h
            have h1 : (handleParsedResponse j (c.connect net.connectOk).2).1 = res :=
              congrArg Prod.fst h
            rw [← h1]
            exact handleParsedResponse_ne_invalid j _
  · rw [if_neg hoc] at h
    simp only [Option.some_inj, Prod.mk.injEq] at h
    obtain ⟨h1, -⟩ := h
    subst h1
    intro hEq
    injection hEq with hE
    exact PyExc.noConfusion hE

/-- Witness for C10: a one-chunk receive returns parseable bytes, and a
concrete `send_command` outcome is not the JSON-decode branch error. -/
theorem response_bytes_always_parse_witness :
    (validUtf8 [49] = true ∧ (jl1 [49]).isSome = true)
    ∧ (Except.ok (Json.obj [("status", Json.str "alive")]) : Except PyExc Json)
        ≠ Except.error (PyExc.exc invalidRespMsg) :=
  ⟨(response_bytes_always_parse jl1).1 [CEvent.chunk [49]] [49] rfl,
   (response_bytes_always_parse jl1).2 ⟨true⟩ ⟨true, SendallRes.ok, [CEvent.chunk [49]]⟩
     "ping" none (Except.ok (Json.obj [("status", Json.str "alive")])) ⟨true⟩ rfl⟩

/-- C5: a receive timeout with bytes accumulated triggers exactly one final
decode — a complete document is returned as the full response, otherwise
"Incomplete JSON response received" is raised instead of returning partial
data; a timeout with nothing accumulated raises "No data received", and at
the `send_command` level that error clears the held socket so the next call
reconnects.  (Bytes accumulated by the loop are always valid UTF-8, since a
chunk making the accumulation invalid raises at that chunk; hence the
validity hypothesis in the first part.) -/
theorem timeout_receive_semantics (jl : List Nat → Option Json) :
    (∀ rest acc, acc.isEmpty = false → validUtf8 acc = true →
        recvLoop jl (CEvent.timeout :: rest) acc
          = some (match jl acc with
                  | some _ => Except.ok acc
                  | none => Except.error (PyExc.exc "Incomplete JSON response received")))
    ∧ (∀ rest, recvLoop jl (CEvent.timeout :: rest) []
          = some (Except.error (PyExc.exc "No data received")))
    ∧ (∀ conn cOk ct p, conn.sockSome = true →
        send_command jl conn ⟨cOk, SendallRes.ok, [CEvent.timeout]⟩ ct p
          = some (Except.error (PyExc.exc ("Communication error with Cinema 4D: " ++ "No data received")),
                  { sockSome := false })) := by
  refine ⟨fun rest acc h1 h2 => ?_, fun rest => rfl, fun conn cOk ct p hs => ?_⟩
  · simp only [recvLoop, afterRecvLoop, h1, h2, Bool.false_eq_true, if_false, if_true]
  · have hc : conn.connect cOk = (true, conn) := by simp [Conn.connect, hs]
    simp [send_command, hc, receive_full_response, recvLoop, afterRecvLoop, pyExcStr]

/-- Witness for C5: incomplete accumulation raises, complete accumulation
is returned, empty accumulation raises "No data received", and the
`send_command` wrapper clears the socket. -/
theorem timeout_receive_semantics_witness :
    recvLoop jl1 [CEvent.timeout] [50]
        = some (Except.error (PyExc.exc "Incomplete JSON response received"))
    ∧ recvLoop jl1 [CEvent.timeout] [49] = some (Except.ok [49])
    ∧ recvLoop jl1 [CEvent.timeout] []
        = some (Except.error (PyExc.exc "No data received"))
    ∧ send_command jl1 ⟨true⟩ ⟨true, SendallRes.ok, [CEvent.timeout]⟩ "ping" none
        = some (Except.error (PyExc.exc ("Communication error with Cinema 4D: " ++ "No data received")),
                ⟨false⟩) :=
  ⟨(timeout_receive_semantics jl1).1 [] [50] rfl rfl,
   (timeout_receive_semantics jl1).1 [] [49] rfl rfl,
   (timeout_receive_semantics jl1).2.1 [],
   (timeout_receive_semantics jl1).2.2 ⟨true⟩ true "ping" none rfl⟩

/-- C6: `get_cinema4d_connection` validates a cached connection with a ping
`send_command` and returns it when the ping succeeds; when the ping fails
for any reason the stale connection is discarded and a fresh one created
(succeeding or raising according to the connect attempt); with no cached
connection and a failing connect it raises the descriptive error and caches
nothing. -/
theorem connection_acquire_semantics (jl : List Nat → Option Json)
    (conn : Conn) (net : NetCtx) (cOk : Bool) :
    (∀ r conn2, send_command jl conn net "ping" none = some (Except.ok r, conn2) →
        get_cinema4d_connection jl (some conn) net cOk
          = some (Except.ok conn2, some conn2))
    ∧ (∀ e conn2, send_command jl conn net "ping" none = some (Except.error e, conn2) →
        get_cinema4d_connection jl (some conn) net cOk
          = some (if cOk then (Except.ok ⟨true⟩, some ⟨true⟩)
                  else (Except.error (PyExc.exc "Could not connect to Cinema 4D. Make sure the Cinema 4D plugin is running."),
                        none)))
    ∧ (get_cinema4d_connection jl none net false
          = some (Except.error (PyExc.exc "Could not connect to Cinema 4D. Make sure the Cinema 4D plugin is running."),
                  none)) := by
  refine ⟨fun r conn2 hp => ?_, fun e conn2 hp => ?_, rfl⟩
  · simp [get_cinema4d_connection, hp]
  · simp only [get_cinema4d_connection, hp]
    cases cOk <;> rfl

/-- Witness for C6: a live cached connection passes the ping and is
returned; a cached connection whose ping hits a connection reset is
replaced according to the connect attempt; with no cache and no reachable
host the descriptive error is raised. -/
theorem connection_acquire_semantics_witness :
    get_cinema4d_connection jl1 (some ⟨true⟩) ⟨true, SendallRes.ok, [CEvent.chunk [49]]⟩ true
        = some (Except.ok ⟨true⟩, some ⟨true⟩)
    ∧ get_cinema4d_connection jl1 (some ⟨true⟩) ⟨true, SendallRes.connErr "reset", []⟩ false
        = some (Except.error (PyExc.exc "Could not connect to Cinema 4D. Make sure the Cinema 4D plugin is running."),
                none)
    ∧ get_cinema4d_connection jl1 none ⟨true, SendallRes.ok, []⟩ false
        = some (Except.error (PyExc.exc "Could not connect to Cinema 4D. Make sure the Cinema 4D plugin is running."),
                none) :=
  ⟨(connection_acquire_semantics jl1 ⟨true⟩ ⟨true, SendallRes.ok, [CEvent.chunk [49]]⟩ true).1
      (Json.obj [("status", Json.str "alive")]) ⟨true⟩ rfl,
   (connection_acquire_semantics jl1 ⟨true⟩ ⟨true, SendallRes.connErr "reset", []⟩ false).2.1
      (PyExc.exc ("Connection to Cinema 4D lost: " ++ "reset")) ⟨false⟩ rfl,
   (connection_acquire_semantics jl1 ⟨true⟩ ⟨true, SendallRes.ok, []⟩ false).2.2⟩

/-- C1: over a healthy connection (every chunk a complete command document,
every send succeeding), the handler loop produces exactly the responses of
the dispatcher applied to the received commands in arrival order, writes
each of them back, and consumes the whole trace: one response per command,
none skipped, duplicated or leaked. -/
theorem one_response_per_command (ext : Ext) (jl : List Nat → Option Json)
    (bss : List (List Nat)) (cmds : List Json) (sends : List Bool) (app : App)
    (hpair : List.Forall₂
      (fun bs c => bs.isEmpty = false ∧ validUtf8 bs = true ∧ jl bs = some c) bss cmds)
    (hsends : ∀ b ∈ sends, b = true) :
    (handle_client ext jl (bss.map HEvent.recv) sends [] app).responses
        = (execAll ext app cmds).1
    ∧ (handle_client ext jl (bss.map HEvent.recv) sends [] app).sent
        = (handle_client ext jl (bss.map HEvent.recv) sends [] app).responses
    ∧ (handle_client ext jl (bss.map HEvent.recv) sends [] app).leftover = [] := by
  induction hpair generalizing sends app with
  | nil => simp [handle_client, execAll]
  | @cons bs c bss2 cmds2 h1 _h2 ih =>
    obtain ⟨hb, hv, hd⟩ := h1
    have hv2 : validUtf8 ([] ++ bs) = true := by simpa using hv
    have hd2 : jl ([] ++ bs) = some c := by simpa using hd
    have hhead : sends.head?.getD true = true := by
      cases sends with
      | nil => rfl
      | cons s ss => exact hsends s (List.mem_cons_self s ss)
    have htail : ∀ b ∈ sends.tail, b = true :=
      fun b hmem => hsends b (List.mem_of_mem_tail hmem)
    have ihx := ih sends.tail (execute_command ext app c).2 htail
    rw [List.map_cons,
        handle_client_decode ext jl bs (bss2.map HEvent.recv) sends [] app c hb hv2 hd2]
    simp [execAll, hhead, ihx.1, ihx.2.1, ihx.2.2]

/-- Witness for C1 over a two-command trace. -/
theorem one_response_per_command_witness :
    (handle_client ext0 jl0 [HEvent.recv [49], HEvent.recv [50]] [true, true] [] app0).responses
        = (execAll ext0 app0
            [pingCmd, Json.obj [("type", Json.str "bogus_command"), ("params", Json.obj [])]]).1
    ∧ (handle_client ext0 jl0 [HEvent.recv [49], HEvent.recv [50]] [true, true] [] app0).sent
        = (handle_client ext0 jl0 [HEvent.recv [49], HEvent.recv [50]] [true, true] [] app0).responses
    ∧ (handle_client ext0 jl0 [HEvent.recv [49], HEvent.recv [50]] [true, true] [] app0).leftover = [] :=
  one_response_per_command ext0 jl0 [[49], [50]]
    [pingCmd, Json.obj [("type", Json.str "bogus_command"), ("params", Json.obj [])]]
    [true, true] app0
    (List.Forall₂.cons ⟨rfl, rfl, rfl⟩
      (List.Forall₂.cons ⟨rfl, rfl, rfl⟩ List.Forall₂.nil))
    (by decide)

/-- C4 (amended): after each chunk the whole buffer is decoded; on
`JSONDecodeError` the buffer is kept unchanged and reading continues, and on
success the entire buffer is exactly one Command with the buffer reset —
but when the accumulated bytes are not valid UTF-8, `buffer.decode("utf-8")`
raises `UnicodeDecodeError`, which `except json.JSONDecodeError` does not
catch: the loop breaks and the connection is closed, so such malformed
input is rejected rather than treated as incomplete. -/
theorem framing_buffer_algorithm (ext : Ext) (jl : List Nat → Option Json)
    (bs : List Nat) (rest : List HEvent) (sends : List Bool) (buf : List Nat)
    (app : App) (hb : bs.isEmpty = false) :
    (jl (buf ++ bs) = none → validUtf8 (buf ++ bs) = true →
        handle_client ext jl (HEvent.recv bs :: rest) sends buf app
          = handle_client ext jl rest sends (buf ++ bs) app)
    ∧ (∀ c, jl (buf ++ bs) = some c → validUtf8 (buf ++ bs) = true →
        (handle_client ext jl (HEvent.recv bs :: rest) sends buf app).responses
          = (execute_command ext app c).1 ::
            (handle_client ext jl rest sends.tail [] (execute_command ext app c).2).responses)
    ∧ (validUtf8 (buf ++ bs) = false →
        handle_client ext jl (HEvent.recv bs :: rest) sends buf app
          = ⟨[], [], buf ++ bs, app, rest⟩) := by
  refine ⟨fun hd hv => ?_, fun c hd hv => ?_, fun hv => ?_⟩
  · exact handle_client_keep ext jl bs rest sends buf app hb hv hd
  · rw [handle_client_decode ext jl bs rest sends buf app c hb hv hd]
  · exact handle_client_invalid_utf8 ext jl bs rest sends buf app hb hv

/-- Witness for C4 (amended) on the three concrete paths: an undecodable
but valid chunk is kept, a complete command is consumed with the buffer
reset, and a non-UTF-8 chunk stops the loop. -/
theorem framing_buffer_algorithm_witness :
    (handle_client ext0 jl0 [HEvent.recv [52]] [true] [] app0
        = handle_client ext0 jl0 [] [true] [52] app0)
    ∧ ((handle_client ext0 jl0 [HEvent.recv [49]] [true] [] app0).responses
        = (execute_command ext0 app0 pingCmd).1 ::
          (handle_client ext0 jl0 [] [] [] (execute_command ext0 app0 pingCmd).2).responses)
    ∧ (handle_client ext0 jl0 [HEvent.recv [255]] [true] [] app0
        = ⟨[], [], [255], app0, []⟩) :=
  ⟨(framing_buffer_algorithm ext0 jl0 [52] [] [true] [] app0 rfl).1 rfl rfl,
   (framing_buffer_algorithm ext0 jl0 [49] [] [true] [] app0 rfl).2.1 pingCmd rfl rfl,
   (framing_buffer_algorithm ext0 jl0 [255] [] [true] [] app0 rfl).2.2 rfl⟩

/-- Counterexample to C4 as stated: the chunk `0xFF` cannot be decoded
(neither as UTF-8 text nor as JSON), yet reading does not continue — the
handler loop stops with the following event unconsumed, and no response is
ever produced, contradicting "malformed input ... is never rejected". -/
theorem framing_malformed_rejected :
    (handle_client ext0 (fun _ => none)
        [HEvent.recv [255], HEvent.recv [49]] [true, true] [] app0).leftover
      = [HEvent.recv [49]]
    ∧ (handle_client ext0 (fun _ => none)
        [HEvent.recv [255], HEvent.recv [49]] [true, true] [] app0).responses = []
    ∧ validUtf8 [255] = false :=
  ⟨rfl, rfl, rfl⟩

/-- C7 (amended): a `recv` returning end-of-stream or raising makes the
handler close the connection and end its loop; but a failed send is caught
by the inner bare `except`, only logged, and the loop continues reading and
answering further Commands on the same connection. -/
theorem connection_teardown_paths (ext : Ext) (jl : List Nat → Option Json)
    (bs : List Nat) (rest : List HEvent) (sends : List Bool) (buf : List Nat)
    (app : App) :
    (bs.isEmpty = true →
        handle_client ext jl (HEvent.recv bs :: rest) sends buf app
          = ⟨[], [], buf, app, rest⟩)
    ∧ (handle_client ext jl (HEvent.recvErr :: rest) sends buf app
          = ⟨[], [], buf, app, rest⟩)
    ∧ (∀ c, bs.isEmpty = false → validUtf8 (buf ++ bs) = true →
        jl (buf ++ bs) = some c →
        (handle_client ext jl (HEvent.recv bs :: rest) (false :: sends) buf app).responses
          = (execute_command ext app c).1 ::
              (handle_client ext jl rest sends [] (execute_command ext app c).2).responses
        ∧ (handle_client ext jl (HEvent.recv bs :: rest) (false :: sends) buf app).sent
          = (handle_client ext jl rest sends [] (execute_command ext app c).2).sent
        ∧ (handle_client ext jl (HEvent.recv bs :: rest) (false :: sends) buf app).leftover
          = (handle_client ext jl rest sends [] (execute_command ext app c).2).leftover) := by
  refine ⟨fun hb => handle_client_eof ext jl bs rest sends buf app hb,
          handle_client_recvErr ext jl rest sends buf app,
          fun c hb hv hd => ?_⟩
  rw [handle_client_decode ext jl bs rest (false :: sends) buf app c hb hv hd]
  simp

/-- Witness for C7 (amended): EOF stops the loop with the next event
unread, a receive error stops it, and with a failing send the response is
still produced and the loop continues. -/
theorem connection_teardown_paths_witness :
    (handle_client ext0 jl0 [HEvent.recv [], HEvent.recv [49]] [true] [55] app0
        = ⟨[], [], [55], app0, [HEvent.recv [49]]⟩)
    ∧ (handle_client ext0 jl0 [HEvent.recvErr] [true] [] app0
        = ⟨[], [], [], app0, []⟩)
    ∧ ((handle_client ext0 jl0 [HEvent.recv [49]] [false] [] app0).responses
        = (execute_command ext0 app0 pingCmd).1 ::
            (handle_client ext0 jl0 [] [] [] (execute_command ext0 app0 pingCmd).2).responses) :=
  ⟨(connection_teardown_paths ext0 jl0 [] [HEvent.recv [49]] [true] [55] app0).1 rfl,
   (connection_teardown_paths ext0 jl0 [] [] [true] [] app0).2.1,
   ((connection_teardown_paths ext0 jl0 [49] [] [] [] app0).2.2 pingCmd rfl rfl rfl).1⟩

/-- Counterexample to C7 as stated: with the first `sendall` failing, the
handler still reads and answers a second Command on the same connection
(two responses produced, only the second written), so a send failure does
not terminate the handler loop. -/
theorem send_failure_keeps_looping :
    (handle_client ext0 jl0 [HEvent.recv [49], HEvent.recv [49]] [false, true] [] app0).responses
        = [pingResp, pingResp]
    ∧ (handle_client ext0 jl0 [HEvent.recv [49], HEvent.recv [49]] [false, true] [] app0).sent
        = [pingResp]
    ∧ (handle_client ext0 jl0 [HEvent.recv [49], HEvent.recv [49]] [false, true] [] app0).leftover = [] :=
  ⟨rfl, rfl, rfl⟩

/-! ## Helper lemmas on the chat history -/

/-- A trimmed history never exceeds the (positive) bound. -/
theorem pySliceLast_length_le (N : Nat) (hN : 0 < N) (xs : List ChatMessage) :
    (pySliceLast N xs).length ≤ N := by
  simp only [pySliceLast, if_neg (Nat.pos_iff_ne_zero.mp hN), List.length_drop]
  omega

/-- One `add_message` call makes the history the last-`max_history` slice of
the old history with the new message appended (for a positive bound the
untrimmed branch coincides with the slice). -/
theorem add_message_history (cm : ChatManager) (a : AddCall)
    (hN : 0 < cm.max_history) :
    ((cm.add_message a.role a.content a.metadata a.now).1).history
      = pySliceLast cm.max_history (cm.history ++ [mkMessage a]) := by
  have hN0 : cm.max_history ≠ 0 := Nat.pos_iff_ne_zero.mp hN
  simp only [ChatManager.add_message, mkMessage]
  split
  · rfl
  · next hle =>
    simp only [pySliceLast, if_neg hN0]
    have h0 : (cm.history ++
        [({ role := a.role, content := a.content, timestamp := a.now,
            metadata := a.metadata.getD [] } : ChatMessage)]).length - cm.max_history = 0 := by
      omega
    rw [h0, List.drop_zero]

/-- `add_message` does not change the bound. -/
theorem add_message_max (cm : ChatManager) (a : AddCall) :
    ((cm.add_message a.role a.content a.metadata a.now).1).max_history
      = cm.max_history := by
  simp only [ChatManager.add_message]

/-- Trimming, appending and trimming again is the same as trimming the
whole concatenation: the key algebraic fact behind the sliding-window
behaviour of the history. -/
theorem pySliceLast_append (N : Nat) (hN : 0 < N) (h t2 : List ChatMessage) :
    pySliceLast N (pySliceLast N h ++ t2) = pySliceLast N (h ++ t2) := by
  have hN0 : N ≠ 0 := Nat.pos_iff_ne_zero.mp hN
  simp only [pySliceLast, if_neg hN0]
  by_cases hle : h.length ≤ N
  · have h0 : h.length - N = 0 := by omega
    rw [h0, List.drop_zero]
  · have hlen2 : (h.drop (h.length - N)).length = N := by
      rw [List.length_drop]; omega
    have e1 : (h.drop (h.length - N) ++ t2).length - N = t2.length := by
      rw [List.length_append, hlen2]; omega
    have e2 : (h ++ t2).length - N = (h.take (h.length - N)).length + t2.length := by
      rw [List.length_append, List.length_take]; omega
    rw [e1, e2]
    conv_rhs => rw [show h ++ t2
      = h.take (h.length - N) ++ (h.drop (h.length - N) ++ t2) by
        rw [← List.append_assoc, List.take_append_drop]]
    rw [List.drop_append]

/-- Every sequence of `add_message` calls starting within the bound leaves
the history equal to the last-`max_history` slice of everything ever
appended: the retained messages are exactly the most recent ones. -/
theorem addAll_history (items : List AddCall) :
    ∀ cm : ChatManager, 0 < cm.max_history →
      cm.history.length ≤ cm.max_history →
      (addAll cm items).history
        = pySliceLast cm.max_history (cm.history ++ items.map mkMessage) := by
  induction items with
  | nil =>
    intro cm hN hlen
    have hN0 : cm.max_history ≠ 0 := Nat.pos_iff_ne_zero.mp hN
    simp only [addAll, List.map_nil, List.append_nil, pySliceLast, if_neg hN0]
    have h0 : cm.history.length - cm.max_history = 0 := by omega
    rw [h0, List.drop_zero]
  | cons a rest ih =>
    intro cm hN hlen
    simp only [addAll, List.map_cons]
    have hmax := add_message_max cm a
    have hh := add_message_history cm a hN
    have hN2 : 0 < ((cm.add_message a.role a.content a.metadata a.now).1).max_history := by
      rw [hmax]; exact hN
    have hlen2 : ((cm.add_message a.role a.content a.metadata a.now).1).history.length
        ≤ ((cm.add_message a.role a.content a.metadata a.now).1).max_history := by
      rw [hmax, hh]
      exact pySliceLast_length_le cm.max_history hN _
    rw [ih _ hN2 hlen2, hmax, hh, pySliceLast_append cm.max_history hN,
        List.append_assoc]
    rfl

/-- C9 (amended): with a positive `max_history`, every `add_message` call
leaves the history within the bound, a sequence of `add_message` calls
retains exactly the most recent messages (oldest dropped first), and the
other history-touching operations preserve the bound — except
`import_history`, which installs the imported message list without trimming
and can exceed the bound. -/
theorem chat_history_bound (cm : ChatManager) (hN : 0 < cm.max_history) :
    (∀ r c md now, ((cm.add_message r c md now).1).history.length ≤ cm.max_history)
    ∧ (cm.history.length ≤ cm.max_history →
        ∀ items : List AddCall,
          (addAll cm items).history
            = pySliceLast cm.max_history (cm.history ++ items.map mkMessage))
    ∧ cm.clear_history.history.length ≤ cm.max_history
    ∧ (∀ now, (cm.reset now).history.length ≤ cm.max_history)
    ∧ (∀ k v, (cm.update_context k v).history = cm.history)
    ∧ cm.clear_context.history = cm.history := by
  refine ⟨fun r c md now => ?_,
          fun hlen items => addAll_history items cm hN hlen,
          ?_, fun now => ?_, fun k v => rfl, rfl⟩
  · have hh := add_message_history cm ⟨r, c, md, now⟩ hN
    rw [hh]
    exact pySliceLast_length_le cm.max_history hN _
  · simp [ChatManager.clear_history]
  · simp [ChatManager.reset, ChatManager.clear_history, ChatManager.clear_context]

/-- Witness for C9 (amended) on a manager with bound 2: three adds keep the
last two messages. -/
theorem chat_history_bound_witness :
    (((⟨[], 2, [], "s"⟩ : ChatManager).add_message "user" "hi" none "t").1.history.length ≤ 2)
    ∧ (addAll (⟨[], 2, [], "s"⟩ : ChatManager)
          [⟨"u", "a", none, "t1"⟩, ⟨"u", "b", none, "t2"⟩, ⟨"u", "c", none, "t3"⟩]).history
        = pySliceLast 2
            (([] : List ChatMessage) ++
              ([⟨"u", "a", none, "t1"⟩, ⟨"u", "b", none, "t2"⟩,
                ⟨"u", "c", none, "t3"⟩] : List AddCall).map mkMessage) :=
  ⟨(chat_history_bound ⟨[], 2, [], "s"⟩ (by decide)).1 "user" "hi" none "t",
   (chat_history_bound ⟨[], 2, [], "s"⟩ (by decide)).2.1 (by decide)
     [⟨"u", "a", none, "t1"⟩, ⟨"u", "b", none, "t2"⟩, ⟨"u", "c", none, "t3"⟩]⟩

/-- Counterexample to C9 as stated: `import_history` is a `ChatManager`
operation that does not preserve the bound — importing two messages into a
manager with `max_history = 1` leaves a history of length 2. -/
theorem import_history_violates_bound :
    ¬ (((⟨[], 1, [], "s"⟩ : ChatManager).import_history none
          [⟨"user", "a", "t1", []⟩, ⟨"user", "b", "t2", []⟩] []).history.length
        ≤ (⟨[], 1, [], "s"⟩ : ChatManager).max_history) := by
  decide

end C4DMCP
